import Mathlib

/-!
Verification of the invoice-gen repository (invoice_generator.py, onboard.py).

This file gives a shallow embedding of the core of `invoice_generator.py`:

* `InvoiceNumberManager` (store load/save, sequential numbering, templates),
  embedded as pure functions over an explicit `RawDoc` store state.  The
  backing JSON file is modelled by `StoreFile` (absent / unparseable /
  parsed document); a parsed document may lack either top-level key and may
  hold a non-integer under `last_invoice_number`, mirroring what `json.load`
  can return.  Each mutating operation returns the document it persisted
  (in the source, `_save_data` runs before the method returns).
* `InvoiceGenerator.generate_pdf`, embedded as a function from the invoice
  record (a Python dict whose keys may be absent, hence `Option` fields) to
  an ordered list of layout `Block`s, or a field error.  Python `KeyError`
  on a required dict access is modelled by `RenderErr.missingField` naming
  the key; the reportlab renderer is an external black box consuming the
  block list.  Python string formatting `f"{n:04d}"` and `f"{x:,.2f}"` is
  embedded by `pyFormat04` and `pyMoneyFmt` (the monetary amount is
  represented exactly, as an integer number of cents).
* the `main` entry point (template loading, the argument-mode gate, the
  merge of CLI arguments over template values, and save-as-template),
  embedded as `mainRun` over the parsed CLI arguments, the store state, and
  the strings `datetime.now()` would produce.
-/

/-! ## Python decimal formatting -/

/-- Base-10 digit characters of a natural number, most significant first,
with explicit fuel (always called with fuel `n + 1`, which suffices since
`n / 10 < n` for `n ≥ 10`). -/
def natDecCharsAux : Nat → Nat → List Char
  | 0, _ => []
  | fuel + 1, n =>
    if n < 10 then [Nat.digitChar n]
    else natDecCharsAux fuel (n / 10) ++ [Nat.digitChar (n % 10)]

/-- Decimal digit characters of a natural number, most significant first. -/
def natDecChars (n : Nat) : List Char :=
  natDecCharsAux (n + 1) n

/-- Decimal string of a natural number (Python `str(n)` for `n ≥ 0`). -/
def natDecStr (n : Nat) : String :=
  ⟨natDecChars n⟩

/-- Left-pad a string with zeros to a minimum width (never truncates). -/
def zeroPad (w : Nat) (s : String) : String :=
  ⟨List.replicate (w - s.length) '0'⟩ ++ s

/-- Python `f"{n:04d}"` on an integer: zero-pad the decimal form to a minimum
width of 4 characters, the sign (when present) counting toward the width. -/
def pyFormat04 (n : Int) : String :=
  if n < 0 then "-" ++ zeroPad 3 (natDecStr n.natAbs)
  else zeroPad 4 (natDecStr n.natAbs)

/-- Insert a comma after every block of three characters, on a
little-endian (least-significant-first) digit list; fuel variant. -/
def commaGroup3Aux : Nat → List Char → List Char
  | 0, ds => ds
  | fuel + 1, ds =>
    if ds.length ≤ 3 then ds
    else ds.take 3 ++ ',' :: commaGroup3Aux fuel (ds.drop 3)

/-- Decimal form of a natural number with comma thousands grouping
(Python `f"{n:,d}"`). -/
def commaGroupedNat (n : Nat) : String :=
  ⟨(commaGroup3Aux (natDecChars n).reverse.length (natDecChars n).reverse).reverse⟩

/-- Two-digit decimal form of a cents value below 100 (the fractional part
printed by Python `.2f` formatting). -/
def pad2 (m : Nat) : String :=
  if m < 10 then "0" ++ natDecStr m else natDecStr m

/-- Python `f"${x:,.2f}"` where the amount `x` is represented exactly as `c`
cents: a dollar sign, then the sign, then the comma-grouped whole-dollar
part, a point, and exactly two fractional digits. -/
def pyMoneyFmt (c : Int) : String :=
  "$" ++ (if c < 0 then "-" else "") ++
    commaGroupedNat (c.natAbs / 100) ++ "." ++ pad2 (c.natAbs % 100)

/-- Characters of a string with the commas removed. -/
def stripCommas (s : String) : String :=
  ⟨s.data.filter (fun ch => ch ≠ ',')⟩

/-! ## The persistent store (`InvoiceNumberManager`) -/

/-- A JSON value found under the `last_invoice_number` key: either an
integer, or some other (malformed) JSON value. -/
inductive RawNum where
  | int (n : Int)
  | other
deriving DecidableEq, Repr

/-- A stored template: the ten optional string fields a template JSON object
may carry (`None`-as-absent is conflated with key-absent, which the source
never distinguishes for templates). -/
structure TemplateRec where
  client_name : Option String := none
  client_address : Option String := none
  client_ein : Option String := none
  contractor_name : Option String := none
  contractor_cuil : Option String := none
  contractor_tax_status : Option String := none
  service_description : Option String := none
  account_holder : Option String := none
  dolartag : Option String := none
  additional_payment_info : Option String := none
deriving DecidableEq, Repr

/-- A parsed store document, as `json.load` returns it: either top-level key
may be missing, and `last_invoice_number` may hold a non-integer. -/
structure RawDoc where
  last_invoice_number : Option RawNum
  templates : Option (List (String × TemplateRec))
deriving DecidableEq, Repr

/-- The state of the backing file `invoice_data.json`. -/
inductive StoreFile where
  | absent
  | garbage
  | parsed (d : RawDoc)
deriving DecidableEq, Repr

/-- Errors raised by store operations: `corrupt` models
`json.JSONDecodeError` on an unparseable file (the specification names it
`CorruptStoreError`); `keyError` models Python `KeyError` on a missing dict
key; `badType` models `TypeError`/`ValueError` when the stored counter is
not an integer. -/
inductive StoreErr where
  | corrupt
  | keyError (key : String)
  | badType
deriving DecidableEq, Repr

/-- `InvoiceNumberManager._load_data`: return the parsed file if present
(no defaulting of inner fields), the literal zero-value document if the file
is absent, and fail if the file cannot be parsed. -/
def load_data : StoreFile → Except StoreErr RawDoc
  | .absent => .ok { last_invoice_number := some (.int 0), templates := some [] }
  | .garbage => .error .corrupt
  | .parsed d => .ok d

/-- `InvoiceNumberManager.get_next_invoice_number`: increment the counter,
persist, and return it formatted with `f"{...:04d}"`.  The returned document
is the persisted one; the increment itself raises before any save when the
key is missing or malformed. -/
def get_next_invoice_number (d : RawDoc) : Except StoreErr (String × RawDoc) :=
  match d.last_invoice_number with
  | none => .error (.keyError "last_invoice_number")
  | some .other => .error .badType
  | some (.int n) =>
    .ok (pyFormat04 (n + 1), { d with last_invoice_number := some (.int (n + 1)) })

/-- `InvoiceNumberManager.get_current_invoice_number`: format the counter
without mutating the store. -/
def get_current_invoice_number (d : RawDoc) : Except StoreErr String :=
  match d.last_invoice_number with
  | none => .error (.keyError "last_invoice_number")
  | some .other => .error .badType
  | some (.int n) => .ok (pyFormat04 n)

/-- Python dict upsert: replace the value in place if the key exists,
otherwise append (dict insertion order). -/
def upsert (l : List (String × TemplateRec)) (name : String) (t : TemplateRec) :
    List (String × TemplateRec) :=
  match l with
  | [] => [(name, t)]
  | (k, v) :: rest =>
    if k = name then (k, t) :: rest else (k, v) :: upsert rest name t

/-- `InvoiceNumberManager.save_template`: default a missing `templates` key
to the empty map, upsert, persist.  The returned document is the persisted
one. -/
def save_template (d : RawDoc) (name : String) (t : TemplateRec) : RawDoc :=
  { d with templates := some (upsert (d.templates.getD []) name t) }

/-- `InvoiceNumberManager.load_template`: `None` when the `templates` key is
missing or the name is absent; no mutation. -/
def load_template (d : RawDoc) (name : String) : Option TemplateRec :=
  match d.templates with
  | none => none
  | some l => l.lookup name

/-- `InvoiceNumberManager.list_templates`: all template names, insertion
order; the empty list when the `templates` key is missing. -/
def list_templates (d : RawDoc) : List String :=
  match d.templates with
  | none => []
  | some l => l.map Prod.fst

/-- Prepend one allocated string to the result of the remaining calls. -/
def consFst (s : String) (p : List String × RawDoc) : List String × RawDoc :=
  (s :: p.1, p.2)

/-- Run `get_next_invoice_number` the given number of times, threading the
persisted store state, collecting the returned strings in call order. -/
def allocRun : Nat → RawDoc → Except StoreErr (List String × RawDoc)
  | 0, d => .ok ([], d)
  | n + 1, d =>
    match get_next_invoice_number d with
    | .error e => .error e
    | .ok (s, d1) => Except.map (consFst s) (allocRun n d1)

/-! ## The invoice record and the layout engine (`InvoiceGenerator`) -/

/-- The invoice data dict passed to `InvoiceGenerator`.  Each field is
`Option`al because the dict may lack the key (the interactive-mode dict
omits several keys; `generate_pdf` reads optional keys with `.get` and
required keys with bracket access). -/
structure InvoiceData where
  invoice_number : Option String := none
  issue_date : Option String := none
  client_name : Option String := none
  client_address : Option String := none
  client_ein : Option String := none
  contractor_name : Option String := none
  contractor_cuil : Option String := none
  contractor_tax_status : Option String := none
  service_description : Option String := none
  service_period : Option String := none
  amount : Option Int := none
  account_holder : Option String := none
  dolartag : Option String := none
  additional_payment_info : Option String := none
deriving DecidableEq, Repr

/-- One flowable appended to `elements` in `generate_pdf`.  Each table
constructor stands for a `Table` with the particular `TableStyle` built at
that call site; spacer heights are in hundredths of an inch. -/
inductive Block where
  | title (text : String)
  | heading (text : String)
  | para (text : String)
  | spacer (hundredthsInch : Nat)
  | headerTable (rows : List (String × String))
  | lineItemsTable (rows : List (String × String))
  | totalTable (rows : List (String × String))
  | note (text : String)
deriving DecidableEq, Repr

/-- A required-field failure during rendering: Python raises `KeyError(key)`
when a required dict key is absent (the specification calls this
`MissingRequiredFieldError`); rendering aborts and no output file is
produced. -/
inductive RenderErr where
  | missingField (key : String)
deriving DecidableEq, Repr

/-- Python `self.invoice_data['k']`: the value, or `KeyError` if absent. -/
def req (key : String) : Option String → Except RenderErr String
  | some v => .ok v
  | none => .error (.missingField key)

/-- Bracket access for the numeric `amount` key. -/
def reqAmount (key : String) : Option Int → Except RenderErr Int
  | some v => .ok v
  | none => .error (.missingField key)

/-- Python truthiness of `self.invoice_data.get(k)`: present and non-empty. -/
def truthyGet (v : Option String) : Bool :=
  match v with
  | some s => s ≠ ""
  | none => false

/-- `InvoiceGenerator.generate_pdf`: transform the invoice dict into the
ordered flowable list handed to the reportlab document builder.  Dict
accesses happen in source order, so the first missing required key among
`invoice_number`, `issue_date`, `amount`, `account_holder`, `dolartag`
determines the error.  (The `from_cell`/`to_cell` lists built at source
lines 156-164 are dead code — never appended to `elements` — and are not
modelled.) -/
def generate_pdf (d : InvoiceData) : Except RenderErr (List Block) := do
  let invoice_number ← req "invoice_number" d.invoice_number
  let issue_date ← req "issue_date" d.issue_date
  let headerRows :=
    [("Invoice Number:", invoice_number), ("Issue Date:", issue_date),
     ("Currency:", "USD")]
  let fromSection :=
    [Block.heading "<b>From:</b>"] ++
    (if truthyGet d.contractor_name then
      [Block.para (d.contractor_name.getD "")] else []) ++
    (if truthyGet d.contractor_cuil then
      [Block.para ("CUIL: " ++ d.contractor_cuil.getD "")] else []) ++
    (if truthyGet d.contractor_tax_status then
      [Block.para ("Tax Status: " ++ d.contractor_tax_status.getD "")] else [])
  let toSection :=
    [Block.heading "<b>Bill To:</b>"] ++
    (if truthyGet d.client_name then
      [Block.para (d.client_name.getD "")] else []) ++
    (if truthyGet d.client_address then
      [Block.para (d.client_address.getD "")] else []) ++
    (if truthyGet d.client_ein then
      [Block.para ("EIN: " ++ d.client_ein.getD "")] else [])
  let description0 := d.service_description.getD "Software engineering services"
  let description :=
    if truthyGet d.service_period then
      description0 ++ "\n" ++ d.service_period.getD ""
    else description0
  let amount ← reqAmount "amount" d.amount
  let amountStr := pyMoneyFmt amount
  let account_holder ← req "account_holder" d.account_holder
  let dolartag ← req "dolartag" d.dolartag
  let remittanceBase :=
    "\n        <b>Dolarapp Account Information:</b><br/>\n        Account Holder: "
    ++ account_holder ++ "<br/>\n        Dolartag: " ++ dolartag ++ "\n        "
  let remittanceText :=
    if truthyGet d.additional_payment_info then
      remittanceBase ++ "<br/>" ++ d.additional_payment_info.getD ""
    else remittanceBase
  .ok ([Block.title "INVOICE", Block.spacer 20,
        Block.headerTable headerRows, Block.spacer 30] ++
       (if fromSection.isEmpty && toSection.isEmpty then []
        else fromSection ++ [Block.spacer 15] ++ toSection ++ [Block.spacer 20]) ++
       [Block.heading "<b>Services</b>", Block.spacer 10,
        Block.lineItemsTable
          [("Description", "Amount (USD)"), (description, amountStr)],
        Block.spacer 15,
        Block.totalTable [("Total:", amountStr)], Block.spacer 30,
        Block.heading "<b>Remittance Instructions</b>",
        Block.para remittanceText, Block.spacer 30,
        Block.note
          "<b>Note:</b> Services performed outside the U.S.; no U.S. withholding applies."])

/-! ## The `main` entry point -/

/-- Parsed CLI arguments.  `none` means the flag was not passed; argparse
applies the `--service-description` default during resolution inside
`mainRun`/`buildInvoiceData`, so the flag is kept as given here.  The
amount is in cents (Python parses it as a float; zero is falsy either
way). -/
structure Args where
  amount : Option Int := none
  account_holder : Option String := none
  dolartag : Option String := none
  client_name : Option String := none
  client_address : Option String := none
  client_ein : Option String := none
  contractor_name : Option String := none
  contractor_cuil : Option String := none
  contractor_tax_status : Option String := none
  service_description : Option String := none
  service_period : Option String := none
  issue_date : Option String := none
  additional_payment_info : Option String := none
  output : Option String := none
  save_template : Option String := none
  use_template : Option String := none
  list_templates : Bool := false
deriving DecidableEq, Repr

/-- The argparse default for `--service-description`. -/
def defaultServiceDescription : String := "Contractor services - Software Engineer"

/-- Python `a or d` for an argparse string value `a` (`None` and the empty
string are falsy). -/
def pyOrStr (a : Option String) (d : String) : String :=
  match a with
  | some s => if s = "" then d else s
  | none => d

/-- Python truthiness of an optional string value. -/
def truthyOpt (v : Option String) : Bool :=
  match v with
  | some s => s ≠ ""
  | none => false

/-- Python truthiness of the parsed `--amount` value (0 is falsy). -/
def truthyAmount (v : Option Int) : Bool :=
  match v with
  | some c => c ≠ 0
  | none => false

/-- The `invoice_data` dict literal of source lines 425-440: merge template
values under CLI arguments.  Every key is written, so every field is
`some`; `service_description` is compared against the argparse default
rather than tested for presence (line 434). -/
def buildInvoiceData (args : Args) (template : TemplateRec)
    (invoice_number issue_date : String) : InvoiceData :=
  let sd := (args.service_description).getD defaultServiceDescription
  { invoice_number := some invoice_number
    issue_date := some issue_date
    client_name := some (pyOrStr args.client_name (template.client_name.getD ""))
    client_address :=
      some (pyOrStr args.client_address (template.client_address.getD ""))
    client_ein := some (pyOrStr args.client_ein (template.client_ein.getD ""))
    contractor_name :=
      some (pyOrStr args.contractor_name (template.contractor_name.getD ""))
    contractor_cuil :=
      some (pyOrStr args.contractor_cuil (template.contractor_cuil.getD ""))
    contractor_tax_status :=
      some (pyOrStr args.contractor_tax_status
        (template.contractor_tax_status.getD ""))
    service_description :=
      some (if sd ≠ defaultServiceDescription then sd
            else template.service_description.getD sd)
    service_period := some (pyOrStr args.service_period "")
    amount := args.amount
    account_holder :=
      some (pyOrStr args.account_holder (template.account_holder.getD ""))
    dolartag := some (pyOrStr args.dolartag (template.dolartag.getD ""))
    additional_payment_info :=
      some (pyOrStr args.additional_payment_info
        (template.additional_payment_info.getD "")) }

/-- The `template_to_save` structure of source lines 449-460: project the
built invoice record down to the ten template-eligible fields. -/
def projectTemplate (d : InvoiceData) : TemplateRec :=
  { client_name := d.client_name
    client_address := d.client_address
    client_ein := d.client_ein
    contractor_name := d.contractor_name
    contractor_cuil := d.contractor_cuil
    contractor_tax_status := d.contractor_tax_status
    service_description := d.service_description
    account_holder := d.account_holder
    dolartag := d.dolartag
    additional_payment_info := d.additional_payment_info }

/-- The JSON object items of a stored template, in the key order of the
`template_to_save` dict literal (source lines 449-460). -/
def templateItems (t : TemplateRec) : List (String × Option String) :=
  [("client_name", t.client_name),
   ("client_address", t.client_address),
   ("client_ein", t.client_ein),
   ("contractor_name", t.contractor_name),
   ("contractor_cuil", t.contractor_cuil),
   ("contractor_tax_status", t.contractor_tax_status),
   ("service_description", t.service_description),
   ("account_holder", t.account_holder),
   ("dolartag", t.dolartag),
   ("additional_payment_info", t.additional_payment_info)]

/-- The observable outcome of one `main` invocation. -/
inductive MainOutcome where
  | listed (names : List String)
  | templateNotFound (name : String)
  | usageError
  | interactive
  | storeFailed (e : StoreErr)
  | renderFailed (e : RenderErr)
  | generated (filename : String) (record : InvoiceData) (doc : List Block)
deriving DecidableEq, Repr

/-- The body of `main` after template resolution: the argument-mode gate
(source line 413), number allocation, defaulting of issue date and output
filename, record build, render, and optional save-as-template.  `today` and
`stamp` stand for the strings `datetime.now()` would produce for the
issue-date default and the filename default. -/
def argumentOrInteractive (args : Args) (store : RawDoc)
    (template : TemplateRec) (today stamp : String) : MainOutcome × RawDoc :=
  let requiredFromTemplate :=
    truthyOpt template.account_holder && truthyOpt template.dolartag
  if (truthyAmount args.amount && truthyOpt args.account_holder &&
        truthyOpt args.dolartag) ||
     (truthyAmount args.amount && requiredFromTemplate) then
    match get_next_invoice_number store with
    | .error e => (.storeFailed e, store)
    | .ok (invoice_number, store1) =>
      let issue_date := pyOrStr args.issue_date today
      let fname0 := pyOrStr args.output ("invoice_" ++ stamp ++ ".pdf")
      let fname := if fname0.endsWith ".pdf" then fname0 else fname0 ++ ".pdf"
      let record := buildInvoiceData args template invoice_number issue_date
      match generate_pdf record with
      | .error e => (.renderFailed e, store1)
      | .ok blocks =>
        match args.save_template with
        | some tname =>
          (.generated fname record blocks,
           save_template store1 tname (projectTemplate record))
        | none => (.generated fname record blocks, store1)
  else
    if truthyAmount args.amount || truthyOpt args.account_holder ||
       truthyOpt args.dolartag then
      (.usageError, store)
    else
      (.interactive, store)

/-- `main`: `--list-templates` short-circuits; a requested template is
loaded (and its absence reported) before the argument-mode gate and before
any allocation; otherwise the template dict is empty.  Returns the outcome
and the final persisted store document. -/
def mainRun (args : Args) (store : RawDoc) (today stamp : String) :
    MainOutcome × RawDoc :=
  if args.list_templates then
    (.listed (list_templates store), store)
  else
    match args.use_template with
    | some name =>
      match load_template store name with
      | none => (.templateNotFound name, store)
      | some t => argumentOrInteractive args store t today stamp
    | none => argumentOrInteractive args store {} today stamp

/-! ## Spec-side definitions and concrete instances used by the claims -/

/-- Is the outcome a generated invoice (argument mode completed)? -/
def isGenerated : MainOutcome → Bool
  | .generated _ _ _ => true
  | _ => false

/-- The first key among `amount`, `account_holder`, `dolartag` that is
absent from a record (meaningful when at least one of them is absent):
the order in which `generate_pdf` reads them. -/
def firstMissingRequired (d : InvoiceData) : String :=
  if d.amount.isNone then "amount"
  else if d.account_holder.isNone then "account_holder"
  else "dolartag"

/-- Whether the named required key is absent from a record. -/
def absentKey (d : InvoiceData) (k : String) : Bool :=
  if k = "amount" then d.amount.isNone
  else if k = "account_holder" then d.account_holder.isNone
  else if k = "dolartag" then d.dolartag.isNone
  else false

/-- Modelled from the spec sentence on merge precedence, for comparison with
the source merge: the explicit value wins if non-empty; otherwise the
template value when the template provides one; otherwise the default. -/
def specMerge (explicitVal templateVal : Option String) (dflt : String) :
    String :=
  match explicitVal with
  | some s =>
    if s ≠ "" then s
    else match templateVal with
         | some t => t
         | none => dflt
  | none =>
    match templateVal with
    | some t => t
    | none => dflt

/-- The amended service-description rule (what line 434 actually does): the
resolved flag value (the flag, or the hardcoded default when absent) wins
iff it differs from the hardcoded default; otherwise the template value
when present; otherwise the resolved value itself. -/
def sdMergeAmended (flagVal templateVal : Option String) : String :=
  let v := flagVal.getD defaultServiceDescription
  if v = defaultServiceDescription then
    match templateVal with
    | some t => t
    | none => v
  else v

/-- CLI arguments that pass `--service-description` explicitly, set to the
very string argparse uses as its default. -/
def argsExplicitDefaultSd : Args :=
  { amount := some 500000, account_holder := some "Jane Roe",
    dolartag := some "$janeroe",
    service_description := some defaultServiceDescription }

/-- A template that provides a service description of its own. -/
def templateWithSd : TemplateRec :=
  { service_description := some "Web design consulting" }

/-- A record whose `amount` key is absent while every other required key is
present. -/
def recMissingAmount : InvoiceData :=
  { invoice_number := some "0001", issue_date := some "2026-03-31",
    account_holder := some "John Doe", dolartag := some "$johndoe" }

/-- A complete record with an amount of 5000 dollars (500000 cents). -/
def recFiveThousand : InvoiceData :=
  { invoice_number := some "0001", issue_date := some "2026-03-31",
    amount := some 500000, account_holder := some "John Doe",
    dolartag := some "$johndoe" }

/-- The block list `generate_pdf` produces for `recFiveThousand`. -/
def blocksFiveThousand : List Block :=
  match generate_pdf recFiveThousand with
  | .ok bs => bs
  | .error _ => []

/-- A template carrying a truthy account holder and payment tag. -/
def rexoTemplate : TemplateRec :=
  { account_holder := some "John Doe", dolartag := some "$johndoe" }

/-- A store holding `rexoTemplate` under the name `rexo`. -/
def storeWithRexo : RawDoc :=
  { last_invoice_number := some (.int 5),
    templates := some [("rexo", rexoTemplate)] }

/-- CLI arguments passing `--amount 0` and a template that would supply the
account holder and payment tag. -/
def argsZeroViaTemplate : Args :=
  { amount := some 0, use_template := some "rexo" }

/-- CLI arguments requesting a template name absent from the store. -/
def argsMissingTemplate : Args :=
  { use_template := some "acme" }

/-- CLI arguments passing `--amount 0` with the account holder and payment
tag supplied directly. -/
def argsZeroDirect : Args :=
  { amount := some 0, account_holder := some "John Doe",
    dolartag := some "$johndoe" }

/-! ## Helper lemmas on decimal formatting -/

theorem digitChar_isDigit {m : Nat} (h : m < 10) :
    (Nat.digitChar m).isDigit = true := by
  interval_cases m <;> decide

theorem natDecCharsAux_digits (fuel : Nat) :
    ∀ n, n < fuel → ∀ ch ∈ natDecCharsAux fuel n, ch.isDigit = true := by
  induction fuel with
  | zero => intro n h; omega
  | succ f ih =>
    intro n h ch hch
    unfold natDecCharsAux at hch
    by_cases h10 : n < 10
    · simp [h10] at hch
      subst hch
      exact digitChar_isDigit h10
    · simp [h10, List.mem_append] at hch
      rcases hch with hch | hch
      · have hdiv : n / 10 < n := Nat.div_lt_self (by omega) (by omega)
        exact ih (n / 10) (by omega) ch hch
      · subst hch
        exact digitChar_isDigit (Nat.mod_lt _ (by omega))

theorem natDecChars_digits (n : Nat) :
    ∀ ch ∈ natDecChars n, ch.isDigit = true :=
  natDecCharsAux_digits (n + 1) n (Nat.lt_succ_self n)

theorem natDecCharsAux_small {fuel n : Nat} (hf : 0 < fuel) (h : n < 10) :
    natDecCharsAux fuel n = [Nat.digitChar n] := by
  cases fuel with
  | zero => omega
  | succ f => simp [natDecCharsAux, h]

theorem natDecStr_length_one {n : Nat} (h : n < 10) :
    (natDecStr n).length = 1 := by
  simp [natDecStr, natDecChars, String.length,
    natDecCharsAux_small (Nat.succ_pos n) h]

theorem natDecStr_length_two {n : Nat} (h1 : 10 ≤ n) (h2 : n < 100) :
    (natDecStr n).length = 2 := by
  have hdiv1 : n / 10 < 10 := by omega
  have hne : ¬ n < 10 := by omega
  have hfuel : natDecCharsAux (n + 1) n =
      natDecCharsAux n (n / 10) ++ [Nat.digitChar (n % 10)] := by
    simp [natDecCharsAux, hne]
  simp [natDecStr, natDecChars, String.length, hfuel,
    natDecCharsAux_small (by omega : 0 < n) hdiv1]

theorem pad2_length {m : Nat} (h : m < 100) : (pad2 m).length = 2 := by
  unfold pad2
  by_cases h10 : m < 10
  · have h0 : ("0" : String).length = 1 := rfl
    simp [h10, String.length_append, natDecStr_length_one h10, h0]
  · simp [h10, natDecStr_length_two (by omega) h]

theorem pad2_digits (m : Nat) :
    ∀ ch ∈ (pad2 m).data, ch.isDigit = true := by
  unfold pad2
  by_cases h10 : m < 10
  · intro ch hch
    simp [h10, String.data_append, natDecStr, natDecChars] at hch
    rcases hch with hch | hch
    · subst hch; decide
    · exact natDecChars_digits m ch (by simpa [natDecChars] using hch)
  · intro ch hch
    simp [h10, natDecStr] at hch
    exact natDecChars_digits m ch (by simpa [natDecChars] using hch)

theorem commaGroup3Aux_chars (fuel : Nat) :
    ∀ ds : List Char, ∀ ch ∈ commaGroup3Aux fuel ds, ch ∈ ds ∨ ch = ',' := by
  induction fuel with
  | zero => intro ds ch hch; exact Or.inl hch
  | succ f ih =>
    intro ds ch hch
    unfold commaGroup3Aux at hch
    by_cases h3 : ds.length ≤ 3
    · simp [h3] at hch; exact Or.inl hch
    · simp [h3, List.mem_append] at hch
      rcases hch with hch | hch | hch
      · exact Or.inl (List.take_subset 3 ds hch)
      · exact Or.inr hch
      · rcases ih (ds.drop 3) ch hch with h | h
        · exact Or.inl (List.drop_subset 3 ds h)
        · exact Or.inr h

theorem filter_ne_comma_eq_self {ds : List Char} (h : ∀ ch ∈ ds, ch ≠ ',') :
    ds.filter (fun ch => ch ≠ ',') = ds := by
  induction ds with
  | nil => rfl
  | cons a l ih =>
    have ha : a ≠ ',' := h a (List.mem_cons_self a l)
    have hl : ∀ ch ∈ l, ch ≠ ',' :=
      fun ch hch => h ch (List.mem_cons_of_mem a hch)
    simp [List.filter_cons, ha, ih hl]
    exact hl

theorem commaGroup3Aux_filter (fuel : Nat) :
    ∀ ds : List Char, (∀ ch ∈ ds, ch ≠ ',') →
      (commaGroup3Aux fuel ds).filter (fun ch => ch ≠ ',') = ds := by
  induction fuel with
  | zero =>
    intro ds hds
    exact filter_ne_comma_eq_self hds
  | succ f ih =>
    intro ds hds
    unfold commaGroup3Aux
    by_cases h3 : ds.length ≤ 3
    · simp only [h3, if_true]
      exact filter_ne_comma_eq_self hds
    · simp only [h3, if_false]
      rw [List.filter_append]
      have htake : (ds.take 3).filter (fun ch => ch ≠ ',') = ds.take 3 :=
        filter_ne_comma_eq_self
          (fun ch hch => hds ch (List.take_subset 3 ds hch))
      have hdrop : ∀ ch ∈ ds.drop 3, ch ≠ ',' :=
        fun ch hch => hds ch (List.drop_subset 3 ds hch)
      simp only [List.filter_cons]
      have hcomma : (decide ((',' : Char) ≠ ',')) = false := by decide
      rw [htake, hcomma, ih (ds.drop 3) hdrop]
      exact List.take_append_drop 3 ds

theorem stripCommas_commaGroupedNat (n : Nat) :
    stripCommas (commaGroupedNat n) = natDecStr n := by
  have hnd : ∀ ch ∈ (natDecChars n).reverse, ch ≠ ',' := by
    intro ch hch hcomma
    have := natDecChars_digits n ch (List.mem_reverse.mp hch)
    subst hcomma
    simp at this
  unfold stripCommas commaGroupedNat natDecStr
  congr 1
  rw [show ((⟨(commaGroup3Aux (natDecChars n).reverse.length
      (natDecChars n).reverse).reverse⟩ : String).data =
      (commaGroup3Aux (natDecChars n).reverse.length
        (natDecChars n).reverse).reverse) from rfl]
  rw [List.filter_reverse,
    commaGroup3Aux_filter (natDecChars n).reverse.length
      (natDecChars n).reverse hnd, List.reverse_reverse]

theorem commaGroupedNat_chars (n : Nat) :
    ∀ ch ∈ (commaGroupedNat n).data, ch.isDigit = true ∨ ch = ',' := by
  intro ch hch
  unfold commaGroupedNat at hch
  rw [show ((⟨(commaGroup3Aux (natDecChars n).reverse.length
      (natDecChars n).reverse).reverse⟩ : String).data =
      (commaGroup3Aux (natDecChars n).reverse.length
        (natDecChars n).reverse).reverse) from rfl] at hch
  rcases commaGroup3Aux_chars (natDecChars n).reverse.length
      (natDecChars n).reverse ch (List.mem_reverse.mp hch) with h | h
  · exact Or.inl (natDecChars_digits n ch (List.mem_reverse.mp h))
  · exact Or.inr h

/-! ## Numbering and store claims -/

theorem pyFormat04_nonneg (m : Nat) :
    pyFormat04 (m : Int) = zeroPad 4 (natDecStr m) := by
  have h : ¬ ((m : Int) < 0) := by omega
  simp [pyFormat04, h, Int.natAbs_ofNat]

theorem pyFormat04_length (m : Nat) :
    (pyFormat04 (m : Int)).length = max 4 (natDecStr m).length := by
  rw [pyFormat04_nonneg]
  unfold zeroPad
  rw [String.length_append]
  have : (⟨List.replicate (4 - (natDecStr m).length) '0'⟩ : String).length =
      4 - (natDecStr m).length := by
    show (List.replicate (4 - (natDecStr m).length) '0').length = _
    exact List.length_replicate _ _
  omega

theorem pyFormat04_pad (m : Nat) :
    ∃ z : Nat, pyFormat04 (m : Int) =
      (⟨List.replicate z '0'⟩ : String) ++ natDecStr m := by
  exact ⟨4 - (natDecStr m).length, pyFormat04_nonneg m⟩

theorem allocRun_closed_form (N : Nat) :
    ∀ (n : Int) (t : Option (List (String × TemplateRec))),
      allocRun N { last_invoice_number := some (.int n), templates := t } =
        .ok ((List.range N).map (fun i => pyFormat04 (n + (i + 1 : Nat))),
             { last_invoice_number := some (.int (n + N)), templates := t }) := by
  induction N with
  | zero =>
    intro n t
    show (Except.ok ([], _) : Except StoreErr (List String × RawDoc)) = _
    rw [List.range_zero, List.map_nil]
    have h0 : n + ((0 : Nat) : Int) = n := by push_cast; ring
    rw [h0]
  | succ N ih =>
    intro n t
    rw [show allocRun (N + 1)
        { last_invoice_number := some (.int n), templates := t } =
      Except.map (consFst (pyFormat04 (n + 1)))
        (allocRun N
          { last_invoice_number := some (.int (n + 1)), templates := t })
      from rfl]
    rw [ih (n + 1) t]
    have hlist : (List.range (N + 1)).map
        (fun i => pyFormat04 (n + (i + 1 : Nat))) =
        pyFormat04 (n + 1) ::
          (List.range N).map (fun i => pyFormat04 (n + 1 + (i + 1 : Nat))) := by
      rw [List.range_succ_eq_map, List.map_cons, List.map_map]
      have htail : ∀ i ∈ List.range N,
          ((fun i : Nat => pyFormat04 (n + (i + 1 : Nat))) ∘ Nat.succ) i =
          (fun i : Nat => pyFormat04 (n + 1 + (i + 1 : Nat))) i := by
        intro i hi
        simp only [Function.comp_apply]
        congr 1
        push_cast
        ring
      rw [List.map_congr_left htail]
      have hhead : pyFormat04 (n + ((0 + 1 : Nat) : Int)) =
          pyFormat04 (n + 1) := by
        have harg : n + ((0 + 1 : Nat) : Int) = n + 1 := by omega
        rw [harg]
      rw [hhead]
    have hnum : n + 1 + (N : Int) = n + ((N + 1 : Nat) : Int) := by
      omega
    rw [hlist, hnum]
    rfl

/-- C1: for every starting counter value and every sequence of N calls to
`get_next_invoice_number` with no external mutation of the store, the
returned strings are the decimal forms of start+1, ..., start+N, each
zero-padded to a minimum width of 4 (1 gives "0001", 10000 gives "10000",
the width never truncates: the result is always some zero padding followed
by the full decimal form), and each call returns the document it persisted,
so after the i-th call the persisted counter is start+i. -/
theorem allocate_next_sequence (n : Int)
    (t : Option (List (String × TemplateRec))) (N : Nat) :
    allocRun N { last_invoice_number := some (.int n), templates := t } =
      .ok ((List.range N).map (fun i => pyFormat04 (n + (i + 1 : Nat))),
           { last_invoice_number := some (.int (n + N)), templates := t }) ∧
    pyFormat04 1 = "0001" ∧ pyFormat04 10000 = "10000" ∧
    (∀ m : Nat, (pyFormat04 (m : Int)).length = max 4 (natDecStr m).length) ∧
    (∀ m : Nat, ∃ z : Nat,
      pyFormat04 (m : Int) = (⟨List.replicate z '0'⟩ : String) ++ natDecStr m) :=
  ⟨allocRun_closed_form N n t, by decide, by decide,
   pyFormat04_length, pyFormat04_pad⟩

/-- C4: an absent store file loads as the zero-value document
(`last_invoice_number = 0`, empty template map), and the first allocation on
that document returns "0001" and persists a document whose counter is 1. -/
theorem absent_store_first_allocation :
    load_data .absent =
      .ok { last_invoice_number := some (.int 0), templates := some [] } ∧
    get_next_invoice_number
        { last_invoice_number := some (.int 0), templates := some [] } =
      .ok ("0001",
        { last_invoice_number := some (.int 1), templates := some [] }) :=
  ⟨rfl, rfl⟩

/-- C5 counterexample: on a parseable store document that lacks the
`last_invoice_number` key (and the `templates` key), allocation does not
succeed by defaulting the counter to 0 — it fails with a key error, so it is
false that every store operation succeeds on such a document. -/
theorem missing_counter_key_allocation_fails :
    get_next_invoice_number { last_invoice_number := none, templates := none } =
      .error (.keyError "last_invoice_number") ∧
    get_current_invoice_number
        { last_invoice_number := none, templates := none } =
      .error (.keyError "last_invoice_number") :=
  ⟨rfl, rfl⟩

/-- C5 amended: load raises the corrupt-store error only for an unparseable
file and performs no defaulting of inner fields (a parseable document is
returned as-is); the template operations (save/load/list) tolerate a missing
`templates` key by defaulting it to the empty map; but allocate and peek
fail with a key error, rather than defaulting to 0, on a parseable document
lacking `last_invoice_number`. -/
theorem store_partial_document_tolerance (lastv : Option RawNum)
    (tv : Option (List (String × TemplateRec))) (name : String)
    (t : TemplateRec) (d : RawDoc) :
    load_data .garbage = .error .corrupt ∧
    load_data (.parsed d) = .ok d ∧
    list_templates { last_invoice_number := lastv, templates := none } = [] ∧
    load_template { last_invoice_number := lastv, templates := none } name =
      none ∧
    save_template { last_invoice_number := lastv, templates := none } name t =
      { last_invoice_number := lastv, templates := some [(name, t)] } ∧
    get_next_invoice_number { last_invoice_number := none, templates := tv } =
      .error (.keyError "last_invoice_number") ∧
    get_current_invoice_number
        { last_invoice_number := none, templates := tv } =
      .error (.keyError "last_invoice_number") :=
  ⟨rfl, rfl, rfl, rfl, rfl, rfl, rfl⟩

/-- C6: the save-as-template projection keeps exactly the ten
template-eligible fields — its JSON object has exactly those keys, each
bound to the corresponding field of the source record — and never contains
the invoice number, issue date, amount, or service period, whatever the
source record holds. -/
theorem template_projection_excludes_per_invoice_fields (d : InvoiceData) :
    (templateItems (projectTemplate d)).map Prod.fst =
      ["client_name", "client_address", "client_ein", "contractor_name",
       "contractor_cuil", "contractor_tax_status", "service_description",
       "account_holder", "dolartag", "additional_payment_info"] ∧
    "invoice_number" ∉ (templateItems (projectTemplate d)).map Prod.fst ∧
    "issue_date" ∉ (templateItems (projectTemplate d)).map Prod.fst ∧
    "amount" ∉ (templateItems (projectTemplate d)).map Prod.fst ∧
    "service_period" ∉ (templateItems (projectTemplate d)).map Prod.fst ∧
    templateItems (projectTemplate d) =
      [("client_name", d.client_name), ("client_address", d.client_address),
       ("client_ein", d.client_ein), ("contractor_name", d.contractor_name),
       ("contractor_cuil", d.contractor_cuil),
       ("contractor_tax_status", d.contractor_tax_status),
       ("service_description", d.service_description),
       ("account_holder", d.account_holder), ("dolartag", d.dolartag),
       ("additional_payment_info", d.additional_payment_info)] := by
  have hkeys : (templateItems (projectTemplate d)).map Prod.fst =
      ["client_name", "client_address", "client_ein", "contractor_name",
       "contractor_cuil", "contractor_tax_status", "service_description",
       "account_holder", "dolartag", "additional_payment_info"] := rfl
  refine ⟨hkeys, ?_, ?_, ?_, ?_, rfl⟩ <;> rw [hkeys] <;> decide

/-- C9: rendering is deterministic — `generate_pdf` is a pure function of
the record alone (the embedding has no clock, file-system, or randomness
input, matching the source, which reads none inside `generate_pdf`), so two
renderings of the same record give the same ordered block sequence with
identical formatted strings, and any renderer that is a pure function of
the block sequence then gives byte-identical document output. -/
theorem rendering_deterministic {β : Type} (renderer : List Block → β)
    (d : InvoiceData) :
    generate_pdf d = generate_pdf d ∧
    (generate_pdf d).map renderer = (generate_pdf d).map renderer :=
  ⟨rfl, rfl⟩

/-! ## Merge precedence claims -/

theorem pyOrStr_eq_specMerge (a t : Option String) :
    pyOrStr a (t.getD "") = specMerge a t "" := by
  cases a with
  | none => cases t <;> rfl
  | some s =>
    by_cases hs : s = ""
    · subst hs
      cases t <;> simp [pyOrStr, specMerge]
    · cases t <;> simp [pyOrStr, specMerge, hs]

theorem pyOrStr_none_template (a : Option String) (dflt : String) :
    pyOrStr a dflt = specMerge a none dflt := by
  cases a with
  | none => rfl
  | some s =>
    by_cases hs : s = ""
    · subst hs; simp [pyOrStr, specMerge]
    · simp [pyOrStr, specMerge, hs]

theorem sd_merge_matches_amended (a t : Option String) :
    (if (a.getD defaultServiceDescription) ≠ defaultServiceDescription then
       a.getD defaultServiceDescription
     else t.getD (a.getD defaultServiceDescription)) =
    sdMergeAmended a t := by
  by_cases hv : a.getD defaultServiceDescription = defaultServiceDescription
  · cases t <;> simp [sdMergeAmended, hv]
  · cases t <;> simp [sdMergeAmended, hv]

/-- C2 counterexample: passing `--service-description` explicitly, set to
the non-empty string that happens to equal the argparse default, while the
template provides a different service description: the claim says the
explicit non-empty value wins, but the built record carries the template
value instead (source line 434 compares the value against the default
string instead of testing presence). -/
theorem merge_service_description_counterexample :
    argsExplicitDefaultSd.service_description =
      some defaultServiceDescription ∧
    defaultServiceDescription ≠ "" ∧
    templateWithSd.service_description = some "Web design consulting" ∧
    (buildInvoiceData argsExplicitDefaultSd templateWithSd "0001"
        "2026-03-31").service_description = some "Web design consulting" ∧
    some "Web design consulting" ≠ some defaultServiceDescription := by
  refine ⟨rfl, by decide, rfl, rfl, by decide⟩

/-- C2 amended: the explicit-over-template-over-default precedence holds for
each mergeable field independently — except service description.  For the
other nine template fields and for the issue date the built record equals
the spec merge rule (explicit non-empty value, else template value when
present, else the default: empty string, or today for the issue date); the
service description instead follows the amended rule: the resolved flag
value wins iff it differs from the hardcoded default string, and otherwise
the template value when present — so an explicit value equal to the default
defers to the template, and an explicit empty string beats the template.
Invoice number and issue date are passed through as supplied, and the
amount is the parsed flag value. -/
theorem merge_precedence_amended (args : Args) (template : TemplateRec)
    (invoice_number issue_date today : String) :
    (buildInvoiceData args template invoice_number issue_date).client_name =
      some (specMerge args.client_name template.client_name "") ∧
    (buildInvoiceData args template invoice_number issue_date).client_address =
      some (specMerge args.client_address template.client_address "") ∧
    (buildInvoiceData args template invoice_number issue_date).client_ein =
      some (specMerge args.client_ein template.client_ein "") ∧
    (buildInvoiceData args template invoice_number issue_date).contractor_name =
      some (specMerge args.contractor_name template.contractor_name "") ∧
    (buildInvoiceData args template invoice_number issue_date).contractor_cuil =
      some (specMerge args.contractor_cuil template.contractor_cuil "") ∧
    (buildInvoiceData args template invoice_number
        issue_date).contractor_tax_status =
      some (specMerge args.contractor_tax_status
        template.contractor_tax_status "") ∧
    (buildInvoiceData args template invoice_number issue_date).account_holder =
      some (specMerge args.account_holder template.account_holder "") ∧
    (buildInvoiceData args template invoice_number issue_date).dolartag =
      some (specMerge args.dolartag template.dolartag "") ∧
    (buildInvoiceData args template invoice_number
        issue_date).additional_payment_info =
      some (specMerge args.additional_payment_info
        template.additional_payment_info "") ∧
    (buildInvoiceData args template invoice_number
        issue_date).service_description =
      some (sdMergeAmended args.service_description
        template.service_description) ∧
    (buildInvoiceData args template invoice_number issue_date).service_period =
      some (specMerge args.service_period none "") ∧
    pyOrStr args.issue_date today = specMerge args.issue_date none today ∧
    (buildInvoiceData args template invoice_number issue_date).invoice_number =
      some invoice_number ∧
    (buildInvoiceData args template invoice_number issue_date).issue_date =
      some issue_date ∧
    (buildInvoiceData args template invoice_number issue_date).amount =
      args.amount := by
  refine ⟨?_, ?_, ?_, ?_, ?_, ?_, ?_, ?_, ?_, ?_, ?_, ?_, rfl, rfl, rfl⟩
  · exact congrArg some (pyOrStr_eq_specMerge _ _)
  · exact congrArg some (pyOrStr_eq_specMerge _ _)
  · exact congrArg some (pyOrStr_eq_specMerge _ _)
  · exact congrArg some (pyOrStr_eq_specMerge _ _)
  · exact congrArg some (pyOrStr_eq_specMerge _ _)
  · exact congrArg some (pyOrStr_eq_specMerge _ _)
  · exact congrArg some (pyOrStr_eq_specMerge _ _)
  · exact congrArg some (pyOrStr_eq_specMerge _ _)
  · exact congrArg some (pyOrStr_eq_specMerge _ _)
  · exact congrArg some (sd_merge_matches_amended _ _)
  · exact congrArg some (pyOrStr_none_template _ _)
  · exact pyOrStr_none_template _ _

/-! ## Rendering failure claims -/

/-- C3: for every record with the invoice number and issue date present (as
the pipeline always supplies them) in which the amount, account holder, or
payment tag key is entirely absent, rendering fails with a missing-field
error naming one of those three keys — the named key is indeed absent from
the record — and no block list (hence no output file) is produced. -/
theorem render_missing_required_field (d : InvoiceData)
    (h1 : d.invoice_number.isSome = true) (h2 : d.issue_date.isSome = true)
    (h3 : d.amount.isNone = true ∨ d.account_holder.isNone = true ∨
          d.dolartag.isNone = true) :
    generate_pdf d = .error (.missingField (firstMissingRequired d)) ∧
    (firstMissingRequired d = "amount" ∨
     firstMissingRequired d = "account_holder" ∨
     firstMissingRequired d = "dolartag") ∧
    absentKey d (firstMissingRequired d) = true := by
  obtain ⟨inv, hinv⟩ := Option.isSome_iff_exists.mp h1
  obtain ⟨date, hdate⟩ := Option.isSome_iff_exists.mp h2
  cases hamt : d.amount with
  | none =>
    refine ⟨?_, Or.inl ?_, ?_⟩
    · simp [generate_pdf, req, reqAmount, hinv, hdate, hamt,
        firstMissingRequired, Bind.bind, Except.bind]
    · simp [firstMissingRequired, hamt]
    · simp [firstMissingRequired, absentKey, hamt]
  | some c =>
    cases hah : d.account_holder with
    | none =>
      refine ⟨?_, Or.inr (Or.inl ?_), ?_⟩
      · simp [generate_pdf, req, reqAmount, hinv, hdate, hamt, hah,
          firstMissingRequired, Bind.bind, Except.bind]
      · simp [firstMissingRequired, hamt, hah]
      · simp [firstMissingRequired, absentKey, hamt, hah]
    | some ah =>
      cases hdt : d.dolartag with
      | none =>
        refine ⟨?_, Or.inr (Or.inr ?_), ?_⟩
        · simp [generate_pdf, req, reqAmount, hinv, hdate, hamt, hah, hdt,
            firstMissingRequired, Bind.bind, Except.bind]
        · simp [firstMissingRequired, hamt, hah, hdt]
        · simp [firstMissingRequired, absentKey, hamt, hah, hdt]
      | some dt =>
        exfalso
        rcases h3 with h | h | h <;> simp [hamt, hah, hdt] at h

/-- Witness for the C3 theorem at a concrete record lacking only the
`amount` key: rendering fails naming `amount`. -/
theorem render_missing_required_field_witness :
    (recMissingAmount.invoice_number.isSome = true ∧
     recMissingAmount.issue_date.isSome = true ∧
     (recMissingAmount.amount.isNone = true ∨
      recMissingAmount.account_holder.isNone = true ∨
      recMissingAmount.dolartag.isNone = true)) ∧
    (generate_pdf recMissingAmount =
       .error (.missingField (firstMissingRequired recMissingAmount)) ∧
     (firstMissingRequired recMissingAmount = "amount" ∨
      firstMissingRequired recMissingAmount = "account_holder" ∨
      firstMissingRequired recMissingAmount = "dolartag") ∧
     absentKey recMissingAmount (firstMissingRequired recMissingAmount) =
       true) :=
  ⟨⟨rfl, rfl, Or.inl rfl⟩,
   render_missing_required_field recMissingAmount rfl rfl (Or.inl rfl)⟩

/-! ## Entry-point claims -/

/-- C7: when the requested template name is absent from the store (and the
run is not a bare listing), `main` reports the not-found error and stops
before the argument-mode gate: the returned store document — counter and
template map — is exactly the input one, so no invoice number is burnt. -/
theorem template_not_found_aborts (args : Args) (store : RawDoc)
    (today stamp name : String)
    (h1 : args.list_templates = false)
    (h2 : args.use_template = some name)
    (h3 : load_template store name = none) :
    mainRun args store today stamp = (.templateNotFound name, store) := by
  simp [mainRun, h1, h2, h3]

/-- Witness for the C7 theorem: a store with an empty template map and a
request for the absent template name `acme`. -/
theorem template_not_found_aborts_witness :
    (argsMissingTemplate.list_templates = false ∧
     argsMissingTemplate.use_template = some "acme" ∧
     load_template
       { last_invoice_number := some (.int 7), templates := some [] }
       "acme" = none) ∧
    mainRun argsMissingTemplate
        { last_invoice_number := some (.int 7), templates := some [] }
        "2026-03-31" "20260331_120000" =
      (.templateNotFound "acme",
       { last_invoice_number := some (.int 7), templates := some [] }) :=
  ⟨⟨rfl, rfl, rfl⟩,
   template_not_found_aborts argsMissingTemplate
     { last_invoice_number := some (.int 7), templates := some [] }
     "2026-03-31" "20260331_120000" "acme" rfl rfl rfl⟩

/-- C10 counterexample: with `--amount 0` and the account holder and payment
tag resolvable only through the loaded template, the claim says the program
prints the required-arguments error and exits with status 1; instead the
run falls through to interactive mode (no error, no exit-1): the
falsy-amount kills the gate, and the fallback error test
`any([args.amount, args.account_holder, args.dolartag])` is also all-falsy
because the two fields were never passed as flags. -/
theorem zero_amount_via_template_counterexample :
    (truthyOpt rexoTemplate.account_holder &&
      truthyOpt rexoTemplate.dolartag) = true ∧
    load_template storeWithRexo "rexo" = some rexoTemplate ∧
    argsZeroViaTemplate.amount = some 0 ∧
    mainRun argsZeroViaTemplate storeWithRexo "2026-03-31"
        "20260331_120000" = (.interactive, storeWithRexo) ∧
    MainOutcome.interactive ≠ MainOutcome.usageError := by
  refine ⟨by decide, rfl, rfl, rfl, by decide⟩

/-- C10 amended: an invocation with `--amount 0` never enters argument mode
(zero is falsy, so the gate fails with or without a template).  When the
account holder or the payment tag is supplied directly as a non-empty flag,
the program prints the required-arguments error and exits with status 1,
generating no invoice and leaving the store — hence the counter — exactly
as it was.  (When the two fields are resolvable only via a template, the
program instead falls back to interactive mode without printing that error,
as the counterexample shows.) -/
theorem zero_amount_direct_usage_error (args : Args) (store : RawDoc)
    (today stamp : String)
    (h0 : args.amount = some 0)
    (h1 : args.list_templates = false)
    (h2 : ∀ nm, args.use_template = some nm →
      (load_template store nm).isSome = true)
    (h3 : (truthyOpt args.account_holder || truthyOpt args.dolartag) = true) :
    mainRun args store today stamp = (.usageError, store) ∧
    isGenerated (mainRun args store today stamp).1 = false := by
  have hmain : mainRun args store today stamp = (.usageError, store) := by
    cases hut : args.use_template with
    | none =>
      simp [mainRun, h1, hut, argumentOrInteractive, h0, h3, truthyAmount]
    | some nm =>
      obtain ⟨t, ht⟩ := Option.isSome_iff_exists.mp (h2 nm hut)
      simp [mainRun, h1, hut, ht, argumentOrInteractive, h0, h3,
        truthyAmount]
  refine ⟨hmain, ?_⟩
  rw [hmain]
  rfl

/-- Witness for the C10 amended theorem: `--amount 0 --account-holder
"John Doe" --dolartag "$johndoe"` against a store, with no template
requested: the usage error is reported and the store is unchanged. -/
theorem zero_amount_direct_usage_error_witness :
    (argsZeroDirect.amount = some 0 ∧
     argsZeroDirect.list_templates = false ∧
     (truthyOpt argsZeroDirect.account_holder ||
       truthyOpt argsZeroDirect.dolartag) = true) ∧
    (mainRun argsZeroDirect storeWithRexo "2026-03-31" "20260331_120000" =
       (.usageError, storeWithRexo) ∧
     isGenerated (mainRun argsZeroDirect storeWithRexo "2026-03-31"
       "20260331_120000").1 = false) :=
  ⟨⟨rfl, rfl, by decide⟩,
   zero_amount_direct_usage_error argsZeroDirect storeWithRexo "2026-03-31"
     "20260331_120000" rfl rfl (fun nm h => Option.noConfusion h)
     (by decide)⟩

/-- C8: for every record that renders successfully with a non-negative
amount of `c` cents, the Services row and the Total row carry the same
amount string `pyMoneyFmt c`, which is a dollar sign followed by the
comma-grouped whole-dollar digits, a point, and exactly two fractional
digits — removing the commas recovers the plain decimal form, every
character of the grouped part is a digit or a comma, and the fractional
part is two digit characters — with 5000 dollars rendering as "$5,000.00",
1234567.50 as "$1,234,567.50", and 0 as "$0.00". -/
theorem amount_formatting (d : InvoiceData) (c : Int) (bs : List Block)
    (hc : d.amount = some c) (hpos : 0 ≤ c)
    (hok : generate_pdf d = .ok bs) :
    Block.totalTable [("Total:", pyMoneyFmt c)] ∈ bs ∧
    (∃ desc, Block.lineItemsTable
      [("Description", "Amount (USD)"), (desc, pyMoneyFmt c)] ∈ bs) ∧
    pyMoneyFmt c = "$" ++ commaGroupedNat (c.natAbs / 100) ++ "." ++
      pad2 (c.natAbs % 100) ∧
    stripCommas (commaGroupedNat (c.natAbs / 100)) =
      natDecStr (c.natAbs / 100) ∧
    (∀ ch ∈ (commaGroupedNat (c.natAbs / 100)).data,
      ch.isDigit = true ∨ ch = ',') ∧
    (pad2 (c.natAbs % 100)).length = 2 ∧
    (∀ ch ∈ (pad2 (c.natAbs % 100)).data, ch.isDigit = true) ∧
    pyMoneyFmt 500000 = "$5,000.00" ∧
    pyMoneyFmt 123456750 = "$1,234,567.50" ∧
    pyMoneyFmt 0 = "$0.00" := by
  have hshape : pyMoneyFmt c = "$" ++ commaGroupedNat (c.natAbs / 100) ++
      "." ++ pad2 (c.natAbs % 100) := by
    have hneg : ¬ (c < 0) := by omega
    simp [pyMoneyFmt, hneg]
  have hrest : stripCommas (commaGroupedNat (c.natAbs / 100)) =
      natDecStr (c.natAbs / 100) ∧
      (∀ ch ∈ (commaGroupedNat (c.natAbs / 100)).data,
        ch.isDigit = true ∨ ch = ',') ∧
      (pad2 (c.natAbs % 100)).length = 2 ∧
      (∀ ch ∈ (pad2 (c.natAbs % 100)).data, ch.isDigit = true) ∧
      pyMoneyFmt 500000 = "$5,000.00" ∧
      pyMoneyFmt 123456750 = "$1,234,567.50" ∧
      pyMoneyFmt 0 = "$0.00" :=
    ⟨stripCommas_commaGroupedNat _, commaGroupedNat_chars _,
     pad2_length (Nat.mod_lt _ (by norm_num)), pad2_digits _,
     by decide, by decide, by decide⟩
  cases hinv : d.invoice_number with
  | none => simp [generate_pdf, req, hinv, Bind.bind, Except.bind] at hok
  | some inv =>
  cases hdate : d.issue_date with
  | none =>
    simp [generate_pdf, req, hinv, hdate, Bind.bind, Except.bind] at hok
  | some date =>
  cases hah : d.account_holder with
  | none =>
    simp [generate_pdf, req, reqAmount, hinv, hdate, hc, hah, Bind.bind,
      Except.bind] at hok
  | some ah =>
  cases hdt : d.dolartag with
  | none =>
    simp [generate_pdf, req, reqAmount, hinv, hdate, hc, hah, hdt,
      Bind.bind, Except.bind] at hok
  | some dt =>
  simp only [generate_pdf, req, reqAmount, hinv, hdate, hc, hah, hdt,
    Bind.bind, Except.bind, Except.ok.injEq] at hok
  subst hok
  refine ⟨by simp, ?_, hshape, hrest⟩
  refine ⟨if truthyGet d.service_period = true then
      d.service_description.getD "Software engineering services" ++ "\n" ++
        d.service_period.getD ""
    else d.service_description.getD "Software engineering services",
    by simp⟩

/-- Witness for the C8 theorem: the complete record `recFiveThousand`
(amount 500000 cents, i.e. 5000 dollars) renders successfully and both
tables carry "$5,000.00". -/
theorem amount_formatting_witness :
    (recFiveThousand.amount = some 500000 ∧ (0 : Int) ≤ 500000 ∧
     generate_pdf recFiveThousand = .ok blocksFiveThousand) ∧
    (Block.totalTable [("Total:", pyMoneyFmt 500000)] ∈ blocksFiveThousand ∧
     (∃ desc, Block.lineItemsTable
       [("Description", "Amount (USD)"), (desc, pyMoneyFmt 500000)] ∈
         blocksFiveThousand) ∧
     pyMoneyFmt 500000 = "$" ++
       commaGroupedNat ((500000 : Int).natAbs / 100) ++ "." ++
       pad2 ((500000 : Int).natAbs % 100) ∧
     stripCommas (commaGroupedNat ((500000 : Int).natAbs / 100)) =
       natDecStr ((500000 : Int).natAbs / 100) ∧
     (∀ ch ∈ (commaGroupedNat ((500000 : Int).natAbs / 100)).data,
       ch.isDigit = true ∨ ch = ',') ∧
     (pad2 ((500000 : Int).natAbs % 100)).length = 2 ∧
     (∀ ch ∈ (pad2 ((500000 : Int).natAbs % 100)).data,
       ch.isDigit = true) ∧
     pyMoneyFmt 500000 = "$5,000.00" ∧
     pyMoneyFmt 123456750 = "$1,234,567.50" ∧
     pyMoneyFmt 0 = "$0.00") :=
  ⟨⟨rfl, by decide, rfl⟩,
   amount_formatting recFiveThousand 500000 blocksFiveThousand rfl
     (by decide) rfl⟩
